import Mathlib

/-!
# Verification of the Rise Gardens token-lifecycle core and light entity

Shallow embedding of `custom_components/rise_garden/api.py` and
`custom_components/rise_garden/light.py`.  Network I/O is modelled by
passing the outcome of each HTTP call (an oracle) explicitly; `time.time()`
calls are modelled by passing the observed clock value at each call site.
Python `None`-able string fields become `Option String`; Python truthiness
of such a field (`if not self.refresh_token`, `if new_refresh_token`) is
`pyTruthy`.  Every externally observable action (identity-provider POST,
API request, rotation-callback invocation) is recorded in an event trace.
-/

namespace RiseGarden

/-- Python truthiness of an optional string: `None` and `""` are falsy. -/
def pyTruthy : Option String → Bool
  | none => false
  | some s => !s.isEmpty

/-- Python `f"{x}"` for an optional string: `None` prints as `"None"`. -/
def pyShowOpt : Option String → String
  | none => "None"
  | some s => s

/-- In-memory session state of `RiseGardensAPI`: the token fields plus the
`authorization` entry of the mutable `self.headers` dict (`none` = the key
is absent, as right after `__init__`). -/
structure Session where
  access_token : Option String
  refresh_token : Option String
  token_expires_at : Int
  authz : Option String
  deriving Repr, DecidableEq

/-- The state of the client right after `__init__`. -/
def initSession : Session :=
  { access_token := none, refresh_token := none, token_expires_at := 0,
    authz := none }

/-- JSON body of a 200 response from the Auth0 token endpoint, as read by
`_update_tokens` via `data.get(...)`: each field may be absent. -/
structure TokenResponse where
  access_token : Option String
  refresh_token : Option String
  expires_in : Option Int
  deriving Repr, DecidableEq

/-- Outcome of one `requests.post` to the token endpoint:
a 200 with a JSON body, a non-200 response, or a raised transport error. -/
inductive AuthResult where
  | ok (body : TokenResponse)
  | errStatus
  | exn
  deriving Repr, DecidableEq

/-- Observable events.  `cbEv arg refresh_at_call` records one invocation of
the rotation callback together with the value `self.refresh_token` holds at
the instant the callback runs; `idp` is one HTTP round-trip to the identity
provider; `api` is one HTTP round-trip to the garden API, recording the
method and URL, the optional `light_level` JSON body, the `authorization`
header sent, and the session's `access_token` at the instant of the call;
`authCall`/`refreshCall` mark entry into `authenticate` /
`refresh_access_token`. -/
inductive Ev where
  | cbEv (arg : String) (refresh_at_call : Option String)
  | authCall
  | refreshCall
  | idp
  | api (method : String) (url : String) (body : Option Int)
      (authz : Option String) (tok : Option String)
  deriving Repr, DecidableEq

/-- The refresh-token-rotation branch of `_update_tokens`: given the
response's `refresh_token`, the new value of `self.refresh_token` and the
callback invocations.  `if new_refresh_token and new_refresh_token !=
self.refresh_token` assigns `self.refresh_token = new_refresh_token` and
*then* invokes the callback (when one is registered), so the session value
recorded at the instant of the call is the new token; `elif
new_refresh_token` assigns without notifying. -/
def rotationStep (cb : Bool) (s : Session) (newTok : Option String) :
    Option String × List Ev :=
  match newTok with
  | some n =>
    if n ≠ "" then
      if some n ≠ s.refresh_token then
        (some n, if cb then [Ev.cbEv n (some n)] else [])
      else
        (some n, [])
    else
      (s.refresh_token, [])
  | none => (s.refresh_token, [])

/-- `_update_tokens(data)`.  `cb` says whether a rotation callback is
registered (`self._on_token_refresh is not None`); `now` is the value of the
`time.time()` call.  Returns the new session and the callback-invocation
events.  Mirrors the source order: `self.access_token` is assigned first,
then the rotation branch, then `token_expires_at` and the header. -/
def update_tokens (cb : Bool) (now : Int) (s : Session) (data : TokenResponse) :
    Session × List Ev :=
  let rot := rotationStep cb s data.refresh_token
  ({ access_token := data.access_token,
     refresh_token := rot.1,
     token_expires_at := now + data.expires_in.getD 36000,
     authz := some ("Bearer " ++ pyShowOpt data.access_token) },
   rot.2)

/-- `authenticate()`.  `r` is the outcome of the password-grant POST; `now`
is the clock at the `_update_tokens` call.  The POST itself is one `idp`
round-trip, attempted in all three cases. -/
def authenticate (cb : Bool) (now : Int) (s : Session) (r : AuthResult) :
    Bool × Session × List Ev :=
  match r with
  | .ok body =>
    let (s', ev) := update_tokens cb now s body
    (true, s', Ev.authCall :: Ev.idp :: ev)
  | .errStatus => (false, s, [Ev.authCall, Ev.idp])
  | .exn => (false, s, [Ev.authCall, Ev.idp])

/-- `refresh_access_token()`.  `r`/`nowR` are the outcome and clock of the
refresh-grant exchange; `ra`/`nowA` those of the fallback `authenticate()`
(used when no refresh token is held, on a non-200, or on a transport
error). -/
def refresh_access_token (cb : Bool) (s : Session)
    (r : AuthResult) (nowR : Int) (ra : AuthResult) (nowA : Int) :
    Bool × Session × List Ev :=
  let core : Bool × Session × List Ev :=
    if pyTruthy s.refresh_token = false then
      authenticate cb nowA s ra
    else
      match r with
      | .ok body =>
        let (s', ev) := update_tokens cb nowR s body
        (true, s', Ev.idp :: ev)
      | .errStatus =>
        let (b, s', ev) := authenticate cb nowA s ra
        (b, s', Ev.idp :: ev)
      | .exn =>
        let (b, s', ev) := authenticate cb nowA s ra
        (b, s', Ev.idp :: ev)
  (core.1, core.2.1, Ev.refreshCall :: core.2.2)

/-- Oracle data consumed by one (possibly triggered) refresh. -/
structure RefEnv where
  r : AuthResult
  nowR : Int
  ra : AuthResult
  nowA : Int
  deriving Repr

/-- `_ensure_valid_token()`: refresh when the token expires in less than
300 seconds.  `now` is the `time.time()` value of the comparison. -/
def ensure_valid_token (cb : Bool) (s : Session) (now : Int) (e : RefEnv) :
    Bool × Session × List Ev :=
  if now > s.token_expires_at - 300 then
    refresh_access_token cb s e.r e.nowR e.ra e.nowA
  else
    (true, s, [])

/-- `set_tokens(access_token, refresh_token, expires_in=36000)`:
restores a stored session and rebuilds the `authorization` header. -/
def set_tokens (_s : Session) (now : Int)
    (access refresh : String) (expires_in : Int) : Session :=
  { access_token := some access,
    refresh_token := some refresh,
    token_expires_at := now + expires_in,
    authz := some ("Bearer " ++ access) }

/-! ## HTTP request wrapper and facade -/

/-- One HTTP response from the garden API: its status code, plus a tag
distinguishing response objects that share a status (so "returns the
*second* response" is expressible). -/
structure ApiResp where
  status : Int
  tag : Nat
  deriving Repr, DecidableEq

/-- Outcome of one `requests.request` call: a response or a raised
transport error. -/
inductive ApiOutcome where
  | resp (r : ApiResp)
  | exn
  deriving Repr, DecidableEq

/-- Oracle data consumed by one `_api_request` call: the clock and refresh
oracle of each of the two possible `_ensure_valid_token` checks, the two
possible HTTP outcomes, and the refresh oracle of the 401 handler. -/
structure ReqEnv where
  nowE1 : Int
  ref1 : RefEnv
  o1 : ApiOutcome
  ref401 : RefEnv
  nowE2 : Int
  ref2 : RefEnv
  o2 : ApiOutcome
  deriving Repr

/-- The recursive call `_api_request(method, url, retry_on_auth_fail=False)`:
ensure-valid check, then one HTTP attempt whose response is returned
whatever its status (`None` on transport error). -/
def api_request_noretry (cb : Bool) (s : Session) (method url : String)
    (body : Option Int) (nowE : Int) (ref : RefEnv) (o : ApiOutcome) :
    Option ApiResp × Session × List Ev :=
  let (_, s1, ev1) := ensure_valid_token cb s nowE ref
  let reqEv := Ev.api method url body s1.authz s1.access_token
  match o with
  | .exn => (none, s1, ev1 ++ [reqEv])
  | .resp r => (some r, s1, ev1 ++ [reqEv])

/-- `_api_request(method, url, retry_on_auth_fail=True)`: ensure-valid
check, HTTP attempt; on a 401, one `refresh_access_token()`; if that
returns true, recurse once with `retry_on_auth_fail=False`, else return
`None`.  Transport errors return `None`. -/
def api_request (cb : Bool) (s : Session) (method url : String)
    (body : Option Int) (env : ReqEnv) :
    Option ApiResp × Session × List Ev :=
  let (_, s1, ev1) := ensure_valid_token cb s env.nowE1 env.ref1
  let reqEv := Ev.api method url body s1.authz s1.access_token
  match env.o1 with
  | .exn => (none, s1, ev1 ++ [reqEv])
  | .resp r =>
    if r.status = 401 then
      let (ok, s2, ev2) :=
        refresh_access_token cb s1 env.ref401.r env.ref401.nowR
          env.ref401.ra env.ref401.nowA
      if ok then
        let (res, s3, ev3) :=
          api_request_noretry cb s2 method url body env.nowE2 env.ref2 env.o2
        (res, s3, (ev1 ++ [reqEv]) ++ ev2 ++ ev3)
      else
        (none, s2, (ev1 ++ [reqEv]) ++ ev2)
    else
      (some r, s1, ev1 ++ [reqEv])

/-- `API_BASE` from `const.py`. -/
def API_BASE : String := "https://prod-api.risegds.com/v2"

/-- The URL `set_light_level` targets for a garden id. -/
def lightUrl (gid : Int) : String :=
  API_BASE ++ "/gardens/" ++ toString gid ++ "/device/light-level"

/-- `set_light_level(garden_id, level)`: PUT with body
`{"light_level": level}`, true iff a response arrived with status 200. -/
def set_light_level (cb : Bool) (s : Session) (garden_id level : Int)
    (env : ReqEnv) : Bool × Session × List Ev :=
  let (resp, s', ev) := api_request cb s "PUT" (lightUrl garden_id) (some level) env
  (match resp with
   | some r => r.status = 200
   | none => false, s', ev)

/-! ## Binary64 model

`light.py` computes `int(light_level * 2.55)` and `int(brightness / 2.55)`
in Python floats, i.e. IEEE-754 binary64.  The model represents a double by
its exact value: a pair `(m, e)` standing for the dyadic rational `m·2^e`;
rounding is round-to-nearest, ties-to-even at 53-bit precision.  Exact
rationals appear as pairs `num/den` with `den > 0`.  The magnitudes arising
here are far from subnormal or overflow range, so no special cases are
needed.  Everything is `Int`/`Nat` arithmetic so terms evaluate inside the
kernel. -/

/-- `2^n` as an integer. -/
def pow2 : Nat → Int
  | 0 => 1
  | n + 1 => 2 * pow2 n

/-- Fuel-driven base-2 logarithm (structural recursion, so it reduces in
the kernel, unlike the well-founded `Nat.log2`): `⌊log2 n⌋` for `n ≥ 1`. -/
def log2fuel : Nat → Nat → Nat
  | 0, _ => 0
  | fuel + 1, n => if n ≥ 2 then log2fuel fuel (n / 2) + 1 else 0

/-- `⌊log2 n⌋` for `n ≥ 1` (0 at 0). -/
def nlog2 (n : Nat) : Nat := log2fuel n n

/-- Round `num/den` (with `num ≥ 0`, `den > 0`) to the nearest integer,
ties to even. -/
def roundHalfEvenQ (num den : Int) : Int :=
  let n := Int.fdiv num den
  let r := num - n * den
  if 2 * r < den then n
  else if den < 2 * r then n + 1
  else if n % 2 = 0 then n else n + 1

/-- Decide `2^e ≤ num/den` for `num, den > 0` by cross-multiplication. -/
def qleP2 (e : Int) (num den : Int) : Bool :=
  if 0 ≤ e then pow2 e.toNat * den ≤ num else den ≤ pow2 (-e).toNat * num

/-- For `num/den > 0`, the exponent `E` with `2^E ≤ num/den < 2^(E+1)`:
a two-candidate correction of `log2 num - log2 den - 1`, which brackets
`log2 (num/den)` within one. -/
def binadeExpQ (num den : Int) : Int :=
  let e0 : Int := (nlog2 num.toNat : Int) - (nlog2 den.toNat : Int) - 1
  if qleP2 (e0 + 1) num den then e0 + 1 else e0

/-- The binary64 double nearest to `num/den` for `num ≥ 0`, `den > 0`, as
a dyadic pair `(m, e)` of value `m·2^e`: mantissa rounded to 53 bits, ties
to even. -/
def flPos (num den : Int) : Int × Int :=
  if num = 0 then (0, 0)
  else
    let k := binadeExpQ num den - 52
    let m :=
      if 0 ≤ k then roundHalfEvenQ num (den * pow2 k.toNat)
      else roundHalfEvenQ (num * pow2 (-k).toNat) den
    (m, k)

/-- The binary64 double nearest to the rational `num/den` (`den ≠ 0`):
sign-normalised wrapper around `flPos` (IEEE rounding is symmetric under
negation). -/
def fl (num den : Int) : Int × Int :=
  let num' := if den < 0 then -num else num
  let den' := if den < 0 then -den else den
  if num' < 0 then
    let p := flPos (-num') den'
    (-p.1, p.2)
  else flPos num' den'

/-- The exact rational value `num/den` of a ratio of two doubles
`(m1·2^e1) / (m2·2^e2)`, as a numerator/denominator pair. -/
def dyQuot (a b : Int × Int) : Int × Int :=
  let e := a.2 - b.2
  if 0 ≤ e then (a.1 * pow2 e.toNat, b.1) else (a.1, b.1 * pow2 (-e).toNat)

/-- IEEE multiplication of two doubles: round the exact product. -/
def flMul (a b : Int × Int) : Int × Int :=
  let m := a.1 * b.1
  let e := a.2 + b.2
  if 0 ≤ e then fl (m * pow2 e.toNat) 1 else fl m (pow2 (-e).toNat)

/-- IEEE division of two doubles: round the exact quotient. -/
def flDiv (a b : Int × Int) : Int × Int :=
  let q := dyQuot a b
  fl q.1 q.2

/-- The double written `2.55` in the source. -/
def d255 : Int × Int := fl 51 20

/-- Python `int()` on a float: truncation toward zero. -/
def pyInt (a : Int × Int) : Int :=
  if 0 ≤ a.2 then a.1 * pow2 a.2.toNat
  else
    let d := pow2 (-a.2).toNat
    if 0 ≤ a.1 then Int.fdiv a.1 d else -Int.fdiv (-a.1) d

/-- Python `l * 2.55` for an int `l`: convert `l` to double, multiply,
round. -/
def pyMul255 (l : Int) : Int × Int := flMul (fl l 1) d255

/-- Python `b / 2.55` for an int `b`: convert `b` to double, divide,
round. -/
def pyDiv255 (b : Int) : Int × Int := flDiv (fl b 1) d255

/-! ## Light entity (`light.py`) -/

/-- The fields of one garden record used by the light entity.
`light_level` may be absent from the JSON (`garden.get("light_level")`). -/
structure Garden where
  id : Int
  name : String
  light_level : Option Int
  is_online : Bool
  deriving Repr, DecidableEq

/-- `_get_garden_data`: first garden in the snapshot with a matching id. -/
def get_garden_data (gardens : List Garden) (gid : Int) : Option Garden :=
  gardens.find? (fun g => g.id = gid)

/-- `RiseGardenLight.is_on`: `light_level is not None and light_level > 0`;
false when the garden is missing. -/
def light_is_on (gardens : List Garden) (gid : Int) : Bool :=
  match get_garden_data gardens gid with
  | some g =>
    match g.light_level with
    | some l => l > 0
    | none => false
  | none => false

/-- `RiseGardenLight.brightness`: `int(light_level * 2.55)`, `None` when
the garden or its `light_level` is missing. -/
def light_brightness (gardens : List Garden) (gid : Int) : Option Int :=
  match get_garden_data gardens gid with
  | some g => g.light_level.map (fun l => pyInt (pyMul255 l))
  | none => none

/-- The level sent by `async_turn_on`: `int(brightness / 2.55)` clamped to
`1..100`; `brightness` defaults to 255 when absent from `kwargs`. -/
def turn_on_level (brightness : Option Int) : Int :=
  let b := brightness.getD 255
  max 1 (min 100 (pyInt (pyDiv255 b)))

/-- `async_turn_on`: compute the level, call `set_light_level`; request a
coordinator refresh iff it returned true.  Result: (level sent,
refresh-requested, session, trace). -/
def async_turn_on (cb : Bool) (s : Session) (gid : Int)
    (brightness : Option Int) (env : ReqEnv) :
    Int × Bool × Session × List Ev :=
  let level := turn_on_level brightness
  let (ok, s', ev) := set_light_level cb s gid level env
  (level, ok, s', ev)

/-- `async_turn_off`: `set_light_level(gid, 0)`; request a coordinator
refresh iff it returned true. -/
def async_turn_off (cb : Bool) (s : Session) (gid : Int) (env : ReqEnv) :
    Int × Bool × Session × List Ev :=
  let (ok, s', ev) := set_light_level cb s gid 0 env
  (0, ok, s', ev)

/-! ## Event classifiers and trace counting -/

/-- Is this event an API round-trip? -/
def isApi : Ev → Bool
  | .api _ _ _ _ _ => true
  | _ => false

/-- Is this event an identity-provider round-trip? -/
def isIdp : Ev → Bool
  | .idp => true
  | _ => false

/-- Is this event an entry into `refresh_access_token`? -/
def isRefreshCall : Ev → Bool
  | .refreshCall => true
  | _ => false

/-- Is this event an entry into `authenticate`? -/
def isAuthCall : Ev → Bool
  | .authCall => true
  | _ => false

/-- The rotation-callback invocations of a trace, each as
(argument, value of `self.refresh_token` at the instant of the call). -/
def cbEvents (tr : List Ev) : List (String × Option String) :=
  tr.filterMap fun e =>
    match e with
    | .cbEv a rc => some (a, rc)
    | _ => none

/-! ## Operation sequences (for the session invariants) -/

/-- One client operation together with its oracle data. -/
inductive Op where
  | opAuth (now : Int) (r : AuthResult)
  | opRefresh (r : AuthResult) (nowR : Int) (ra : AuthResult) (nowA : Int)
  | opEnsure (now : Int) (e : RefEnv)
  | opSetTokens (now : Int) (access refresh : String) (expires_in : Int)
  deriving Repr

/-- Execute one operation on a session. -/
def opResult (cb : Bool) (s : Session) : Op → Bool × Session × List Ev
  | .opAuth now r => authenticate cb now s r
  | .opRefresh r nowR ra nowA => refresh_access_token cb s r nowR ra nowA
  | .opEnsure now e => ensure_valid_token cb s now e
  | .opSetTokens now a rt ei => (true, set_tokens s now a rt ei, [])

/-- Did this operation perform a *successful authentication*: an
`authenticate`/`refresh_access_token` call (possibly the one triggered
inside `_ensure_valid_token`) that returned true?  An untriggered
`_ensure_valid_token` returns true in the source but performs no
authentication, and `set_tokens` authenticates nothing. -/
def opAuthSuccess (cb : Bool) (s : Session) : Op → Bool
  | .opAuth now r => (authenticate cb now s r).1
  | .opRefresh r nowR ra nowA => (refresh_access_token cb s r nowR ra nowA).1
  | .opEnsure now e =>
    if now > s.token_expires_at - 300 then
      (refresh_access_token cb s e.r e.nowR e.ra e.nowA).1
    else false
  | .opSetTokens _ _ _ _ => false

/-- Run a sequence of operations, accumulating whether at least one
authentication has succeeded so far. -/
def runOps (cb : Bool) : Session → Bool → List Op → Session × Bool
  | s, flag, [] => (s, flag)
  | s, flag, op :: ops =>
    runOps cb (opResult cb s op).2.1 (flag || opAuthSuccess cb s op) ops

/-- A token-endpoint 200 body carrying a truthy `access_token`. -/
def goodBody (b : TokenResponse) : Bool := pyTruthy b.access_token

/-- An auth outcome whose 200 body (if any) carries a truthy token. -/
def goodRes : AuthResult → Bool
  | .ok b => goodBody b
  | _ => true

/-- Well-formedness of an operation's oracle data: every 200 body supplies
a truthy `access_token`, and `set_tokens` is given a non-empty one. -/
def goodOp : Op → Bool
  | .opAuth _ r => goodRes r
  | .opRefresh r _ ra _ => goodRes r && goodRes ra
  | .opEnsure _ e => goodRes e.r && goodRes e.ra
  | .opSetTokens _ a _ _ => !a.isEmpty

/-- The `authorization` header entry matches the current `access_token`
(as the f-string `f"Bearer {self.access_token}"` renders it). -/
def headerInv (s : Session) : Prop :=
  s.authz = some ("Bearer " ++ pyShowOpt s.access_token)

/-! ## Spec-side formulas (for refinement comparison only)

These two definitions follow the specification's words, not the source;
they are compared against the source-derived functions. -/

/-- Spec formula: `brightness = round(light_level * 2.55)` in exact
arithmetic, halves rounding up: `⌊l·51/20 + 1/2⌋ = ⌊(102l + 20)/40⌋`. -/
def spec_brightness (l : Int) : Int := Int.fdiv (102 * l + 20) 40

/-- Spec formula: `level = clamp(round(brightness / 2.55), 1, 100)` in
exact arithmetic, halves rounding up: `round(b/2.55) = ⌊(40b + 51)/102⌋`. -/
def spec_level (b : Int) : Int :=
  max 1 (min 100 (Int.fdiv (40 * b + 51) 102))

/-! ## Trace-structure lemmas -/

lemma rotationStep_trace (cb : Bool) (s : Session) (t : Option String) :
    (rotationStep cb s t).2 = [] ∨
      ∃ n, (rotationStep cb s t).2 = [Ev.cbEv n (some n)] := by
  unfold rotationStep
  cases t with
  | none => exact Or.inl rfl
  | some n =>
    dsimp only
    split_ifs <;>
      first
      | exact Or.inl rfl
      | exact Or.inr ⟨n, rfl⟩

lemma countP_rotationStep (p : Ev → Bool)
    (hp : ∀ n rc, p (Ev.cbEv n rc) = false)
    (cb : Bool) (s : Session) (t : Option String) :
    ((rotationStep cb s t).2).countP p = 0 := by
  rcases rotationStep_trace cb s t with h | ⟨n, h⟩ <;>
    simp [h, List.countP_cons, hp]

lemma update_tokens_trace (cb : Bool) (now : Int) (s : Session)
    (d : TokenResponse) :
    (update_tokens cb now s d).2 = (rotationStep cb s d.refresh_token).2 := rfl

lemma countP_authenticate_api (cb : Bool) (now : Int) (s : Session)
    (r : AuthResult) :
    ((authenticate cb now s r).2.2).countP isApi = 0 := by
  cases r <;>
    simp [authenticate, update_tokens, List.countP_cons, isApi,
      countP_rotationStep isApi (fun _ _ => rfl) cb s]

lemma countP_authenticate_idp (cb : Bool) (now : Int) (s : Session)
    (r : AuthResult) :
    ((authenticate cb now s r).2.2).countP isIdp = 1 := by
  cases r <;>
    simp [authenticate, update_tokens, List.countP_cons, isIdp,
      countP_rotationStep isIdp (fun _ _ => rfl) cb s]

lemma countP_authenticate_refreshCall (cb : Bool) (now : Int) (s : Session)
    (r : AuthResult) :
    ((authenticate cb now s r).2.2).countP isRefreshCall = 0 := by
  cases r <;>
    simp [authenticate, update_tokens, List.countP_cons, isRefreshCall,
      countP_rotationStep isRefreshCall (fun _ _ => rfl) cb s]

lemma refresh_trace_cons (cb : Bool) (s : Session) (r : AuthResult)
    (nowR : Int) (ra : AuthResult) (nowA : Int) :
    Ev.refreshCall ∈ (refresh_access_token cb s r nowR ra nowA).2.2 := by
  simp only [refresh_access_token]
  exact List.mem_cons_self _ _

lemma countP_refresh_api (cb : Bool) (s : Session) (r : AuthResult)
    (nowR : Int) (ra : AuthResult) (nowA : Int) :
    ((refresh_access_token cb s r nowR ra nowA).2.2).countP isApi = 0 := by
  by_cases h : pyTruthy s.refresh_token = false
  · simp [refresh_access_token, h, List.countP_cons, isApi,
      countP_authenticate_api]
  · cases r <;>
      simp [refresh_access_token, h, update_tokens, List.countP_cons, isApi,
        countP_authenticate_api,
        countP_rotationStep isApi (fun _ _ => rfl) cb s]

lemma countP_refresh_idp_le (cb : Bool) (s : Session) (r : AuthResult)
    (nowR : Int) (ra : AuthResult) (nowA : Int) :
    ((refresh_access_token cb s r nowR ra nowA).2.2).countP isIdp ≤ 2 := by
  by_cases h : pyTruthy s.refresh_token = false
  · simp [refresh_access_token, h, List.countP_cons, isIdp,
      countP_authenticate_idp]
  · cases r <;>
      simp [refresh_access_token, h, update_tokens, List.countP_cons, isIdp,
        countP_authenticate_idp,
        countP_rotationStep isIdp (fun _ _ => rfl) cb s]

lemma countP_refresh_refreshCall (cb : Bool) (s : Session) (r : AuthResult)
    (nowR : Int) (ra : AuthResult) (nowA : Int) :
    ((refresh_access_token cb s r nowR ra nowA).2.2).countP isRefreshCall
      = 1 := by
  by_cases h : pyTruthy s.refresh_token = false
  · simp [refresh_access_token, h, List.countP_cons, isRefreshCall,
      countP_authenticate_refreshCall]
  · cases r <;>
      simp [refresh_access_token, h, update_tokens, List.countP_cons,
        isRefreshCall, countP_authenticate_refreshCall,
        countP_rotationStep isRefreshCall (fun _ _ => rfl) cb s]

lemma countP_ensure_api (cb : Bool) (s : Session) (now : Int) (e : RefEnv) :
    ((ensure_valid_token cb s now e).2.2).countP isApi = 0 := by
  unfold ensure_valid_token
  split_ifs
  · exact countP_refresh_api ..
  · rfl

lemma countP_ensure_idp_le (cb : Bool) (s : Session) (now : Int)
    (e : RefEnv) :
    ((ensure_valid_token cb s now e).2.2).countP isIdp ≤ 2 := by
  unfold ensure_valid_token
  split_ifs
  · exact countP_refresh_idp_le ..
  · simp

lemma countP_ensure_refreshCall_le (cb : Bool) (s : Session) (now : Int)
    (e : RefEnv) :
    ((ensure_valid_token cb s now e).2.2).countP isRefreshCall ≤ 1 := by
  unfold ensure_valid_token
  split_ifs
  · exact Nat.le_of_eq (countP_refresh_refreshCall ..)
  · simp

lemma isApi_api (m u : String) (b : Option Int) (az tok : Option String) :
    isApi (Ev.api m u b az tok) = true := rfl

lemma isIdp_api (m u : String) (b : Option Int) (az tok : Option String) :
    isIdp (Ev.api m u b az tok) = false := rfl

lemma isRefreshCall_api (m u : String) (b : Option Int)
    (az tok : Option String) :
    isRefreshCall (Ev.api m u b az tok) = false := rfl

lemma authCall_not_mem_rotationStep (cb : Bool) (s : Session)
    (t : Option String) :
    Ev.authCall ∉ (rotationStep cb s t).2 := by
  rcases rotationStep_trace cb s t with h | ⟨n, h⟩ <;> simp [h]

lemma not_api_of_mem_refresh (cb : Bool) (s : Session) (r : AuthResult)
    (nowR : Int) (ra : AuthResult) (nowA : Int) (e : Ev)
    (he : e ∈ (refresh_access_token cb s r nowR ra nowA).2.2) :
    isApi e = false := by
  have h := countP_refresh_api cb s r nowR ra nowA
  rw [List.countP_eq_zero] at h
  simpa using h e he

lemma not_api_of_mem_ensure (cb : Bool) (s : Session) (now : Int)
    (env : RefEnv) (e : Ev)
    (he : e ∈ (ensure_valid_token cb s now env).2.2) :
    isApi e = false := by
  have h := countP_ensure_api cb s now env
  rw [List.countP_eq_zero] at h
  simpa using h e he

lemma countP_noretry_api (cb : Bool) (s : Session) (m u : String)
    (b : Option Int) (nowE : Int) (ref : RefEnv) (o : ApiOutcome) :
    ((api_request_noretry cb s m u b nowE ref o).2.2).countP isApi = 1 := by
  cases o <;>
    simp [api_request_noretry, List.countP_append, List.countP_cons, isApi,
      countP_ensure_api]

lemma countP_noretry_idp_le (cb : Bool) (s : Session) (m u : String)
    (b : Option Int) (nowE : Int) (ref : RefEnv) (o : ApiOutcome) :
    ((api_request_noretry cb s m u b nowE ref o).2.2).countP isIdp ≤ 2 := by
  have h := countP_ensure_idp_le cb s nowE ref
  cases o
  all_goals
    simp [api_request_noretry, List.countP_append, List.countP_cons, isIdp]
    exact h

lemma countP_noretry_refreshCall_le (cb : Bool) (s : Session) (m u : String)
    (b : Option Int) (nowE : Int) (ref : RefEnv) (o : ApiOutcome) :
    ((api_request_noretry cb s m u b nowE ref o).2.2).countP
      isRefreshCall ≤ 1 := by
  have h := countP_ensure_refreshCall_le cb s nowE ref
  cases o
  all_goals
    simp [api_request_noretry, List.countP_append, List.countP_cons,
      isRefreshCall]
    exact h

lemma noretry_no_trigger (cb : Bool) (s : Session) (m u : String)
    (b : Option Int) (nowE : Int) (ref : RefEnv) (r : ApiResp)
    (h : ¬ nowE > s.token_expires_at - 300) :
    api_request_noretry cb s m u b nowE ref (.resp r) =
      (some r, s, [Ev.api m u b s.authz s.access_token]) := by
  simp [api_request_noretry, ensure_valid_token, h]

lemma noretry_mem_shape (cb : Bool) (s : Session) (m u : String)
    (b : Option Int) (nowE : Int) (ref : RefEnv) (o : ApiOutcome) (e : Ev)
    (he : e ∈ (api_request_noretry cb s m u b nowE ref o).2.2)
    (hapi : isApi e = true) :
    ∃ az tok, e = Ev.api m u b az tok := by
  cases o <;>
    · simp only [api_request_noretry, List.mem_append, List.mem_singleton]
        at he
      rcases he with he | he
      · rw [not_api_of_mem_ensure cb s nowE ref e he] at hapi
        cases hapi
      · exact ⟨_, _, he⟩

lemma headerInv_update_tokens (cb : Bool) (now : Int) (s : Session)
    (d : TokenResponse) :
    headerInv ((update_tokens cb now s d).1) := rfl

lemma headerInv_set_tokens (s : Session) (now : Int) (a rt : String)
    (ei : Int) :
    headerInv (set_tokens s now a rt ei) := rfl

lemma headerInv_authenticate (cb : Bool) (now : Int) (s : Session)
    (r : AuthResult) (h : headerInv s) :
    headerInv ((authenticate cb now s r).2.1) := by
  cases r with
  | ok body => exact headerInv_update_tokens ..
  | errStatus => exact h
  | exn => exact h

lemma headerInv_refresh (cb : Bool) (s : Session) (r : AuthResult)
    (nowR : Int) (ra : AuthResult) (nowA : Int) (h : headerInv s) :
    headerInv ((refresh_access_token cb s r nowR ra nowA).2.1) := by
  by_cases ht : pyTruthy s.refresh_token = false
  · simp only [refresh_access_token, if_pos ht]
    exact headerInv_authenticate cb nowA s ra h
  · cases r with
    | ok body =>
      simp only [refresh_access_token, if_neg ht]
      exact headerInv_update_tokens ..
    | errStatus =>
      simp only [refresh_access_token, if_neg ht]
      exact headerInv_authenticate cb nowA s ra h
    | exn =>
      simp only [refresh_access_token, if_neg ht]
      exact headerInv_authenticate cb nowA s ra h

lemma headerInv_ensure (cb : Bool) (s : Session) (now : Int) (e : RefEnv)
    (h : headerInv s) :
    headerInv ((ensure_valid_token cb s now e).2.1) := by
  unfold ensure_valid_token
  split_ifs
  · exact headerInv_refresh cb s e.r e.nowR e.ra e.nowA h
  · exact h

lemma authenticate_good_access (cb : Bool) (now : Int) (s : Session)
    (r : AuthResult) (hg : goodRes r = true)
    (h : pyTruthy s.access_token = true ∨ (authenticate cb now s r).1 = true) :
    pyTruthy (authenticate cb now s r).2.1.access_token = true := by
  cases r with
  | ok body => exact hg
  | errStatus =>
    rcases h with h | h
    · exact h
    · exact absurd h (by simp [authenticate])
  | exn =>
    rcases h with h | h
    · exact h
    · exact absurd h (by simp [authenticate])

lemma refresh_good_access (cb : Bool) (s : Session) (r : AuthResult)
    (nowR : Int) (ra : AuthResult) (nowA : Int)
    (hgr : goodRes r = true) (hga : goodRes ra = true)
    (h : pyTruthy s.access_token = true ∨
      (refresh_access_token cb s r nowR ra nowA).1 = true) :
    pyTruthy (refresh_access_token cb s r nowR ra nowA).2.1.access_token
      = true := by
  by_cases ht : pyTruthy s.refresh_token = false
  · simp only [refresh_access_token, if_pos ht] at h ⊢
    exact authenticate_good_access cb nowA s ra hga h
  · cases r with
    | ok body =>
      simp only [refresh_access_token, if_neg ht]
      exact hgr
    | errStatus =>
      simp only [refresh_access_token, if_neg ht] at h ⊢
      exact authenticate_good_access cb nowA s ra hga h
    | exn =>
      simp only [refresh_access_token, if_neg ht] at h ⊢
      exact authenticate_good_access cb nowA s ra hga h

lemma opStep_access (cb : Bool) (s : Session) (op : Op)
    (hg : goodOp op = true)
    (h : pyTruthy s.access_token = true ∨ opAuthSuccess cb s op = true) :
    pyTruthy ((opResult cb s op).2.1).access_token = true := by
  cases op with
  | opAuth now r => exact authenticate_good_access cb now s r hg h
  | opRefresh r nowR ra nowA =>
    rw [goodOp, Bool.and_eq_true] at hg
    exact refresh_good_access cb s r nowR ra nowA hg.1 hg.2 h
  | opEnsure now e =>
    rw [goodOp, Bool.and_eq_true] at hg
    by_cases hc : now > s.token_expires_at - 300
    · simp only [opResult, opAuthSuccess, ensure_valid_token, if_pos hc]
        at h ⊢
      exact refresh_good_access cb s e.r e.nowR e.ra e.nowA hg.1 hg.2 h
    · simp only [opResult, opAuthSuccess, ensure_valid_token, if_neg hc]
        at h ⊢
      rcases h with h | h
      · exact h
      · cases h
  | opSetTokens now a rt ei => exact hg

lemma runOps_access (cb : Bool) (ops : List Op) :
    ∀ s flag, (∀ op ∈ ops, goodOp op = true) →
      (flag = true → pyTruthy s.access_token = true) →
      ((runOps cb s flag ops).2 = true →
        pyTruthy (runOps cb s flag ops).1.access_token = true) := by
  induction ops with
  | nil => intro s flag _ hpre; exact hpre
  | cons op ops ih =>
    intro s flag hg hpre
    simp only [runOps]
    apply ih
    · intro o ho; exact hg o (List.mem_cons_of_mem _ ho)
    · intro hflag
      rw [Bool.or_eq_true] at hflag
      rcases hflag with hf | hs
      · exact opStep_access cb s op (hg op (List.mem_cons_self _ _))
          (Or.inl (hpre hf))
      · exact opStep_access cb s op (hg op (List.mem_cons_self _ _))
          (Or.inr hs)

set_option maxRecDepth 8000 in
/-- `int(l * 2.55)` in binary64 agrees with exact `⌊51·l/20⌋` on 0..99
but truncates to 254 at `l = 100` (the double product `100 * 2.55` is
`254.99999999999997`). -/
lemma pyMul255_table : ∀ n : Nat, n < 101 →
    pyInt (pyMul255 (n : Int)) =
      if n = 100 then 254 else Int.fdiv (51 * (n : Int)) 20 := by decide

set_option maxRecDepth 8000 in
/-- `int(b / 2.55)` in binary64 agrees with exact `⌊20·b/51⌋` on all of
0..255. -/
lemma pyDiv255_table : ∀ n : Nat, n < 256 →
    pyInt (pyDiv255 (n : Int)) = Int.fdiv (20 * (n : Int)) 51 := by decide

lemma api_events_shape (cb : Bool) (s : Session) (m u : String)
    (b : Option Int) (env : ReqEnv) :
    ∀ e ∈ (api_request cb s m u b env).2.2, isApi e = true →
      ∃ az tok, e = Ev.api m u b az tok := by
  obtain ⟨nE1, rf1, o1, rf401, nE2, rf2, o2⟩ := env
  intro e he hapi
  cases o1 with
  | exn =>
    simp only [api_request, List.mem_append, List.mem_singleton] at he
    rcases he with he | he
    · rw [not_api_of_mem_ensure cb s nE1 rf1 e he] at hapi; cases hapi
    · exact ⟨_, _, he⟩
  | resp r =>
    by_cases hst : r.status = 401
    · by_cases hok : (refresh_access_token cb
          (ensure_valid_token cb s nE1 rf1).2.1 rf401.r rf401.nowR
          rf401.ra rf401.nowA).1 = true
      · simp only [api_request] at he
        rw [if_pos hst, if_pos hok] at he
        simp only [List.mem_append, List.mem_singleton] at he
        rcases he with ((he | he) | he) | he
        · rw [not_api_of_mem_ensure cb s nE1 rf1 e he] at hapi
          cases hapi
        · exact ⟨_, _, he⟩
        · rw [not_api_of_mem_refresh cb (ensure_valid_token cb s nE1
            rf1).2.1 rf401.r rf401.nowR rf401.ra rf401.nowA e he] at hapi
          cases hapi
        · exact noretry_mem_shape cb _ m u b nE2 rf2 o2 e he hapi
      · simp only [api_request] at he
        rw [if_pos hst, if_neg hok] at he
        simp only [List.mem_append, List.mem_singleton] at he
        rcases he with (he | he) | he
        · rw [not_api_of_mem_ensure cb s nE1 rf1 e he] at hapi
          cases hapi
        · exact ⟨_, _, he⟩
        · rw [not_api_of_mem_refresh cb (ensure_valid_token cb s nE1
            rf1).2.1 rf401.r rf401.nowR rf401.ra rf401.nowA e he] at hapi
          cases hapi
    · simp only [api_request] at he
      rw [if_neg hst] at he
      simp only [List.mem_append, List.mem_singleton] at he
      rcases he with he | he
      · rw [not_api_of_mem_ensure cb s nE1 rf1 e he] at hapi; cases hapi
      · exact ⟨_, _, he⟩

lemma noretry_mem_header (cb : Bool) (s : Session) (m u : String)
    (b : Option Int) (nowE : Int) (ref : RefEnv) (o : ApiOutcome)
    (hinv : headerInv s) :
    ∀ e ∈ (api_request_noretry cb s m u b nowE ref o).2.2, isApi e = true →
      ∃ tok, e = Ev.api m u b (some ("Bearer " ++ pyShowOpt tok)) tok := by
  intro e he hapi
  have hinv1 := headerInv_ensure cb s nowE ref hinv
  cases o <;>
    · simp only [api_request_noretry, List.mem_append, List.mem_singleton]
        at he
      rcases he with he | he
      · rw [not_api_of_mem_ensure cb s nowE ref e he] at hapi
        cases hapi
      · exact ⟨(ensure_valid_token cb s nowE ref).2.1.access_token,
          by rw [he, hinv1]⟩

lemma api_events_header (cb : Bool) (s : Session) (m u : String)
    (b : Option Int) (env : ReqEnv) (hinv : headerInv s) :
    ∀ e ∈ (api_request cb s m u b env).2.2, isApi e = true →
      ∃ tok, e = Ev.api m u b (some ("Bearer " ++ pyShowOpt tok)) tok := by
  obtain ⟨nE1, rf1, o1, rf401, nE2, rf2, o2⟩ := env
  intro e he hapi
  have hinv1 := headerInv_ensure cb s nE1 rf1 hinv
  have hinv2 := headerInv_refresh cb (ensure_valid_token cb s nE1 rf1).2.1
    rf401.r rf401.nowR rf401.ra rf401.nowA hinv1
  cases o1 with
  | exn =>
    simp only [api_request, List.mem_append, List.mem_singleton] at he
    rcases he with he | he
    · rw [not_api_of_mem_ensure cb s nE1 rf1 e he] at hapi; cases hapi
    · exact ⟨(ensure_valid_token cb s nE1 rf1).2.1.access_token,
        by rw [he, hinv1]⟩
  | resp r =>
    by_cases hst : r.status = 401
    · by_cases hok : (refresh_access_token cb
          (ensure_valid_token cb s nE1 rf1).2.1 rf401.r rf401.nowR
          rf401.ra rf401.nowA).1 = true
      · simp only [api_request] at he
        rw [if_pos hst, if_pos hok] at he
        simp only [List.mem_append, List.mem_singleton] at he
        rcases he with ((he | he) | he) | he
        · rw [not_api_of_mem_ensure cb s nE1 rf1 e he] at hapi
          cases hapi
        · exact ⟨(ensure_valid_token cb s nE1 rf1).2.1.access_token,
            by rw [he, hinv1]⟩
        · rw [not_api_of_mem_refresh cb (ensure_valid_token cb s nE1
            rf1).2.1 rf401.r rf401.nowR rf401.ra rf401.nowA e he] at hapi
          cases hapi
        · exact noretry_mem_header cb _ m u b nE2 rf2 o2 hinv2 e he hapi
      · simp only [api_request] at he
        rw [if_pos hst, if_neg hok] at he
        simp only [List.mem_append, List.mem_singleton] at he
        rcases he with (he | he) | he
        · rw [not_api_of_mem_ensure cb s nE1 rf1 e he] at hapi
          cases hapi
        · exact ⟨(ensure_valid_token cb s nE1 rf1).2.1.access_token,
            by rw [he, hinv1]⟩
        · rw [not_api_of_mem_refresh cb (ensure_valid_token cb s nE1
            rf1).2.1 rf401.r rf401.nowR rf401.ra rf401.nowA e he] at hapi
          cases hapi
    · simp only [api_request] at he
      rw [if_neg hst] at he
      simp only [List.mem_append, List.mem_singleton] at he
      rcases he with he | he
      · rw [not_api_of_mem_ensure cb s nE1 rf1 e he] at hapi; cases hapi
      · exact ⟨(ensure_valid_token cb s nE1 rf1).2.1.access_token,
          by rw [he, hinv1]⟩

/-! ## Claim theorems -/

/-- C2 (confirmed): `_ensure_valid_token` triggers `refresh_access_token`
if and only if `now > token_expires_at - 300`; when
`now ≤ token_expires_at - 300` it performs no refresh (empty event trace)
and returns true with the session unchanged, and when it triggers, its
entire behaviour is exactly that of `refresh_access_token`. -/
theorem C2_ensure_valid_token (cb : Bool) (s : Session) (now : Int)
    (e : RefEnv) :
    (Ev.refreshCall ∈ (ensure_valid_token cb s now e).2.2 ↔
      now > s.token_expires_at - 300) ∧
    (now ≤ s.token_expires_at - 300 →
      ensure_valid_token cb s now e = (true, s, [])) ∧
    (now > s.token_expires_at - 300 →
      ensure_valid_token cb s now e =
        refresh_access_token cb s e.r e.nowR e.ra e.nowA) := by
  unfold ensure_valid_token
  by_cases h : now > s.token_expires_at - 300
  · exact ⟨by simp [h, refresh_trace_cons], fun hc => absurd h (by omega),
      fun _ => by simp [h]⟩
  · exact ⟨by simp [h], fun _ => by simp [h], fun hc => absurd hc h⟩

/-- Witness for C2 at a concrete expired session. -/
theorem C2_witness :
    ensure_valid_token true initSession 0
        ⟨AuthResult.errStatus, 0, AuthResult.errStatus, 0⟩ =
      refresh_access_token true initSession AuthResult.errStatus 0
        AuthResult.errStatus 0 :=
  (C2_ensure_valid_token true initSession 0
    ⟨AuthResult.errStatus, 0, AuthResult.errStatus, 0⟩).2.2 (by decide)

/-- C5 (confirmed): `refresh_access_token` falls back to `authenticate`
(returning its result and final session) exactly when no refresh token is
held or the refresh-grant exchange fails with a non-200 or a transport
error; on a 200 refresh response it returns true, updates the session
exactly as `authenticate` would on the same body, and never enters
`authenticate` (no `authCall` event). -/
theorem C5_refresh_fallback (cb : Bool) (s : Session) (nowR : Int)
    (ra : AuthResult) (nowA : Int) (body : TokenResponse) (r : AuthResult) :
    (pyTruthy s.refresh_token = false →
      (refresh_access_token cb s r nowR ra nowA).1 =
          (authenticate cb nowA s ra).1 ∧
        (refresh_access_token cb s r nowR ra nowA).2.1 =
          (authenticate cb nowA s ra).2.1) ∧
    (pyTruthy s.refresh_token = true →
      ((refresh_access_token cb s .errStatus nowR ra nowA).1 =
          (authenticate cb nowA s ra).1 ∧
        (refresh_access_token cb s .errStatus nowR ra nowA).2.1 =
          (authenticate cb nowA s ra).2.1) ∧
      ((refresh_access_token cb s .exn nowR ra nowA).1 =
          (authenticate cb nowA s ra).1 ∧
        (refresh_access_token cb s .exn nowR ra nowA).2.1 =
          (authenticate cb nowA s ra).2.1) ∧
      ((refresh_access_token cb s (.ok body) nowR ra nowA).1 = true ∧
        (refresh_access_token cb s (.ok body) nowR ra nowA).2.1 =
          (authenticate cb nowR s (.ok body)).2.1 ∧
        Ev.authCall ∉
          (refresh_access_token cb s (.ok body) nowR ra nowA).2.2)) := by
  constructor
  · intro h
    constructor <;> simp [refresh_access_token, if_pos h]
  · intro h
    have hn : ¬ pyTruthy s.refresh_token = false := by simp [h]
    refine ⟨⟨?_, ?_⟩, ⟨?_, ?_⟩, ?_, ?_, ?_⟩
    all_goals
      simp [refresh_access_token, authenticate, if_neg hn, update_tokens,
        authCall_not_mem_rotationStep cb s body.refresh_token]

/-- Witness for C5: a held refresh token and a 200 refresh response give
true without entering `authenticate`. -/
theorem C5_witness :
    (refresh_access_token true ⟨some "A", some "R", 0, none⟩
      (.ok ⟨some "A2", some "R2", some 100⟩) 5 .errStatus 7).1 = true :=
  (((C5_refresh_fallback true ⟨some "A", some "R", 0, none⟩ 5 .errStatus 7
    ⟨some "A2", some "R2", some 100⟩ .errStatus).2 (by decide)).2.2).1

/-- C4 (confirmed): `authenticate` returns true exactly on an HTTP 200, in
which case the session receives the body's `access_token` and
`refresh_token` and `expires_at = now + expires_in` with `expires_in`
defaulting to 36000 when absent; on a non-200 or a transport error it
returns false with the session untouched (the Lean embedding is total, so
no exception escapes, matching the source's catch-all). -/
theorem C4_authenticate (cb : Bool) (now : Int) (s : Session)
    (body : TokenResponse) (rt : String)
    (hr : body.refresh_token = some rt) (hne : rt ≠ "") :
    (authenticate cb now s (.ok body)).1 = true ∧
    (authenticate cb now s (.ok body)).2.1.access_token =
      body.access_token ∧
    (authenticate cb now s (.ok body)).2.1.refresh_token = some rt ∧
    (authenticate cb now s (.ok body)).2.1.token_expires_at =
      now + body.expires_in.getD 36000 ∧
    authenticate cb now s .errStatus = (false, s, [Ev.authCall, Ev.idp]) ∧
    authenticate cb now s .exn = (false, s, [Ev.authCall, Ev.idp]) := by
  refine ⟨rfl, rfl, ?_, rfl, rfl, rfl⟩
  simp only [authenticate, update_tokens, rotationStep, hr]
  rw [if_pos hne]
  split_ifs <;> rfl

/-- Witness for C4: the spec scenario
`{access_token:"A", refresh_token:"R", expires_in:100}` at `now = 1000`. -/
theorem C4_witness :
    (authenticate true 1000 initSession
      (.ok ⟨some "A", some "R", some 100⟩)).1 = true ∧
    (authenticate true 1000 initSession
      (.ok ⟨some "A", some "R", some 100⟩)).2.1.token_expires_at = 1100 ∧
    (authenticate true 1000 initSession
      (.ok ⟨some "A", some "R", some 100⟩)).2.1.access_token = some "A" ∧
    (authenticate true 1000 initSession
      (.ok ⟨some "A", some "R", some 100⟩)).2.1.refresh_token
      = some "R" := by
  have h := C4_authenticate true 1000 initSession
    ⟨some "A", some "R", some 100⟩ "R" rfl (by decide)
  refine ⟨h.1, ?_, h.2.1, h.2.2.1⟩
  rw [h.2.2.2.1]
  rfl

/-- C1 as stated is refuted: in the source, `self.refresh_token` is
assigned the new value *before* the rotation callback is invoked (the
callback observes the new, not the old, token), so the callback is not
invoked before the commit.  Concrete run: held token "R1", 200 refresh
response rotating to "R2"; the single recorded invocation carries
`refresh_at_call = some "R2"`, not the prior value `some "R1"`. -/
theorem C1_counterexample :
    ¬ (∀ pr ∈ cbEvents ((refresh_access_token true
          ⟨some "A0", some "R1", 1000, some "Bearer A0"⟩
          (.ok ⟨some "A1", some "R2", some 36000⟩) 2000
          .errStatus 2000).2.2),
        pr.2 = (⟨some "A0", some "R1", 1000, some "Bearer A0"⟩ :
          Session).refresh_token) := by decide

/-- C1 amended: when a 200 refresh response carries a refresh token
different from the held one, the registered callback is invoked exactly
once with the new value, but only *after* the new token is committed to
the in-memory field: at the instant of invocation `self.refresh_token`
already holds the new value (so callers reading the session from the
callback onward observe the new token); when the new token equals the old
one, the callback is not invoked. -/
theorem C1_amended (s : Session) (body : TokenResponse) (n : String)
    (nowR : Int) (ra : AuthResult) (nowA : Int)
    (htok : pyTruthy s.refresh_token = true)
    (hn : body.refresh_token = some n) (hne : n ≠ "") :
    (some n ≠ s.refresh_token →
      cbEvents (refresh_access_token true s (.ok body) nowR ra nowA).2.2 =
          [(n, some n)] ∧
        (refresh_access_token true s (.ok body) nowR ra
          nowA).2.1.refresh_token = some n) ∧
    (some n = s.refresh_token →
      cbEvents (refresh_access_token true s (.ok body) nowR ra nowA).2.2 =
        []) := by
  have hx : ¬ pyTruthy s.refresh_token = false := by simp [htok]
  constructor
  · intro hdiff
    simp only [refresh_access_token, if_neg hx, update_tokens,
      rotationStep, hn]
    rw [if_pos hne, if_pos hdiff]
    exact ⟨rfl, rfl⟩
  · intro heq
    simp only [refresh_access_token, if_neg hx, update_tokens,
      rotationStep, hn]
    rw [if_pos hne, if_neg (not_not_intro heq)]
    rfl

/-- Witness for C1 (amended) at the concrete rotation "R1" to "R2". -/
theorem C1_witness :
    cbEvents (refresh_access_token true ⟨some "A0", some "R1", 1000, none⟩
        (.ok ⟨some "A1", some "R2", some 36000⟩) 2000 .errStatus
        2000).2.2 =
      [("R2", some "R2")] :=
  ((C1_amended ⟨some "A0", some "R1", 1000, none⟩
    ⟨some "A1", some "R2", some 36000⟩ "R2" 2000 .errStatus 2000
    (by decide) rfl (by decide)).1 (by decide)).1

/-- C3 as stated is refuted: on a response sequence [401, 401] with the
intervening refresh succeeding, `_api_request` does not return null; the
retry is issued with `retry_on_auth_fail=False`, so the second 401
response object is returned as-is.  Concrete run: valid session, first
response 401 (tag 0), refresh-grant succeeds, second response 401 (tag
1). -/
theorem C3_counterexample :
    (api_request true ⟨some "A", some "R", 100000, some "Bearer A"⟩ "GET"
        "https://prod-api.risegds.com/v2/gardens/list_v2" none
        ⟨0, ⟨.errStatus, 0, .errStatus, 0⟩, .resp ⟨401, 0⟩,
          ⟨.ok ⟨some "A2", some "R", some 36000⟩, 0, .errStatus, 0⟩,
          0, ⟨.errStatus, 0, .errStatus, 0⟩, .resp ⟨401, 1⟩⟩).1 =
      some ⟨401, 1⟩ ∧
    (api_request true ⟨some "A", some "R", 100000, some "Bearer A"⟩ "GET"
        "https://prod-api.risegds.com/v2/gardens/list_v2" none
        ⟨0, ⟨.errStatus, 0, .errStatus, 0⟩, .resp ⟨401, 0⟩,
          ⟨.ok ⟨some "A2", some "R", some 36000⟩, 0, .errStatus, 0⟩,
          0, ⟨.errStatus, 0, .errStatus, 0⟩, .resp ⟨401, 1⟩⟩).1 ≠
      none := by decide

/-- C3 amended: with the proactive expiry checks not firing, on a first
response of 401 with the intervening refresh succeeding, `_api_request`
returns the second response whatever its status (the 200 of [401, 200],
but equally the second 401 of [401, 401]), performing exactly one refresh
attempt and two API round-trips; if the refresh after the first 401
fails, it returns null without retrying (one API round-trip, one refresh
attempt). -/
theorem C3_request_retry (cb : Bool) (s : Session) (m u : String)
    (b : Option Int) (env : ReqEnv) (r1 : ApiResp)
    (h1 : ¬ env.nowE1 > s.token_expires_at - 300)
    (ho1 : env.o1 = .resp r1) (hst : r1.status = 401) :
    (∀ s2 ev2, refresh_access_token cb s env.ref401.r env.ref401.nowR
        env.ref401.ra env.ref401.nowA = (true, s2, ev2) →
      ¬ env.nowE2 > s2.token_expires_at - 300 →
      ((∀ r2, env.o2 = .resp r2 →
          (api_request cb s m u b env).1 = some r2) ∧
        ((api_request cb s m u b env).2.2).countP isRefreshCall = 1 ∧
        ((api_request cb s m u b env).2.2).countP isApi = 2)) ∧
    ((refresh_access_token cb s env.ref401.r env.ref401.nowR env.ref401.ra
        env.ref401.nowA).1 = false →
      (api_request cb s m u b env).1 = none ∧
        ((api_request cb s m u b env).2.2).countP isApi = 1 ∧
        ((api_request cb s m u b env).2.2).countP isRefreshCall = 1) := by
  obtain ⟨nE1, rf1, o1, rf401, nE2, rf2, o2⟩ := env
  dsimp only at h1 ho1 ⊢
  subst ho1
  have he1 : ensure_valid_token cb s nE1 rf1 = (true, s, []) := by
    simp [ensure_valid_token, h1]
  have hrc := countP_refresh_refreshCall cb s rf401.r rf401.nowR rf401.ra
    rf401.nowA
  have hra := countP_refresh_api cb s rf401.r rf401.nowR rf401.ra rf401.nowA
  constructor
  · intro s2 ev2 hr h2
    have he2 : ensure_valid_token cb s2 nE2 rf2 = (true, s2, []) := by
      simp [ensure_valid_token, h2]
    rw [hr] at hrc hra
    refine ⟨?_, ?_, ?_⟩
    · intro r2 ho2
      subst ho2
      simp [api_request, he1, hst, hr, api_request_noretry, he2]
    · cases o2 <;>
        simp [api_request, he1, hst, hr, api_request_noretry, he2,
          List.countP_append, List.countP_cons, isRefreshCall, hrc]
    · cases o2 <;>
        simp [api_request, he1, hst, hr, api_request_noretry, he2,
          List.countP_append, List.countP_cons, isApi, hra]
  · intro hrf
    refine ⟨?_, ?_, ?_⟩ <;>
      simp [api_request, he1, hst, hrf, List.countP_append,
        List.countP_cons, isApi, isRefreshCall, hra, hrc]

/-- Witness for C3 (amended): the [401, 200] run returns the 200
response. -/
theorem C3_witness :
    (api_request true ⟨some "A", some "R", 100000, some "Bearer A"⟩ "GET"
        "https://prod-api.risegds.com/v2/gardens/list_v2" none
        ⟨0, ⟨.errStatus, 0, .errStatus, 0⟩, .resp ⟨401, 0⟩,
          ⟨.ok ⟨some "A2", some "R", some 36000⟩, 50, .errStatus, 0⟩,
          60, ⟨.errStatus, 0, .errStatus, 0⟩, .resp ⟨200, 1⟩⟩).1 =
      some ⟨200, 1⟩ :=
  (((C3_request_retry true ⟨some "A", some "R", 100000, some "Bearer A"⟩
      "GET" "https://prod-api.risegds.com/v2/gardens/list_v2" none
      ⟨0, ⟨.errStatus, 0, .errStatus, 0⟩, .resp ⟨401, 0⟩,
        ⟨.ok ⟨some "A2", some "R", some 36000⟩, 50, .errStatus, 0⟩,
        60, ⟨.errStatus, 0, .errStatus, 0⟩, .resp ⟨200, 1⟩⟩ ⟨401, 0⟩
      (by decide) rfl rfl).1
    ⟨some "A2", some "R", 36050, some "Bearer A2"⟩ [Ev.refreshCall, Ev.idp]
    (by decide) (by decide)).1 ⟨200, 1⟩ rfl)

/-- C6 as stated is refuted: a single `_api_request` call can perform more
than one identity-provider round-trip.  Concrete run: expired token, so
the proactive check refreshes (one round-trip), then the request still
gets a 401, triggering a second refresh (a second round-trip) before the
retry succeeds. -/
theorem C6_counterexample :
    ((api_request true ⟨some "A", some "R", 0, some "Bearer A"⟩ "GET"
        "https://prod-api.risegds.com/v2/gardens/list_v2" none
        ⟨1000, ⟨.ok ⟨some "A2", some "R", some 36000⟩, 1000, .errStatus, 0⟩,
          .resp ⟨401, 0⟩,
          ⟨.ok ⟨some "A3", some "R", some 36000⟩, 1000, .errStatus, 0⟩,
          1000, ⟨.errStatus, 0, .errStatus, 0⟩, .resp ⟨200, 1⟩⟩).2.2).countP
      isIdp = 2 ∧
    ¬ ((api_request true ⟨some "A", some "R", 0, some "Bearer A"⟩ "GET"
        "https://prod-api.risegds.com/v2/gardens/list_v2" none
        ⟨1000, ⟨.ok ⟨some "A2", some "R", some 36000⟩, 1000, .errStatus, 0⟩,
          .resp ⟨401, 0⟩,
          ⟨.ok ⟨some "A3", some "R", some 36000⟩, 1000, .errStatus, 0⟩,
          1000, ⟨.errStatus, 0, .errStatus, 0⟩, .resp ⟨200, 1⟩⟩).2.2).countP
      isIdp ≤ 1 := by decide

/-- C6 amended: per `_api_request` call, at most two API round-trips are
performed (one retry maximum); identity-provider round-trips are bounded
not by one but by six: up to three `refresh_access_token` invocations
(proactive check, 401 handler, retry's proactive check), each making at
most two round-trips (refresh grant plus fallback password grant). -/
theorem C6_round_trip_bound (cb : Bool) (s : Session) (m u : String)
    (b : Option Int) (env : ReqEnv) :
    ((api_request cb s m u b env).2.2).countP isApi ≤ 2 ∧
    ((api_request cb s m u b env).2.2).countP isIdp ≤ 6 ∧
    ((api_request cb s m u b env).2.2).countP isRefreshCall ≤ 3 := by
  obtain ⟨nE1, rf1, o1, rf401, nE2, rf2, o2⟩ := env
  have hea := countP_ensure_api cb s nE1 rf1
  have hei := countP_ensure_idp_le cb s nE1 rf1
  have her := countP_ensure_refreshCall_le cb s nE1 rf1
  cases o1 with
  | exn =>
    refine ⟨?_, ?_, ?_⟩
    · simp [api_request, List.countP_append, List.countP_cons, isApi_api,
        hea]
    · simp only [api_request, List.countP_append, List.countP_cons,
        isIdp_api]
      simp
      exact le_trans hei (by norm_num)
    · simp only [api_request, List.countP_append, List.countP_cons,
        isRefreshCall_api]
      simp
      exact le_trans her (by norm_num)
  | resp r =>
    by_cases hst : r.status = 401
    · have hra := countP_refresh_api cb
        (ensure_valid_token cb s nE1 rf1).2.1 rf401.r rf401.nowR rf401.ra
        rf401.nowA
      have hri := countP_refresh_idp_le cb
        (ensure_valid_token cb s nE1 rf1).2.1 rf401.r rf401.nowR rf401.ra
        rf401.nowA
      have hrr := countP_refresh_refreshCall cb
        (ensure_valid_token cb s nE1 rf1).2.1 rf401.r rf401.nowR rf401.ra
        rf401.nowA
      by_cases hok : (refresh_access_token cb
          (ensure_valid_token cb s nE1 rf1).2.1 rf401.r rf401.nowR
          rf401.ra rf401.nowA).1 = true
      · have hna := countP_noretry_api cb
          (refresh_access_token cb (ensure_valid_token cb s nE1 rf1).2.1
            rf401.r rf401.nowR rf401.ra rf401.nowA).2.1 m u b nE2 rf2 o2
        have hni := countP_noretry_idp_le cb
          (refresh_access_token cb (ensure_valid_token cb s nE1 rf1).2.1
            rf401.r rf401.nowR rf401.ra rf401.nowA).2.1 m u b nE2 rf2 o2
        have hnr := countP_noretry_refreshCall_le cb
          (refresh_access_token cb (ensure_valid_token cb s nE1 rf1).2.1
            rf401.r rf401.nowR rf401.ra rf401.nowA).2.1 m u b nE2 rf2 o2
        refine ⟨?_, ?_, ?_⟩
        · simp [api_request, hst, hok, List.countP_append,
            List.countP_cons, isApi_api, hea, hra, hna]
        · simp only [api_request, hst, hok, if_true, List.countP_append,
            List.countP_cons, isIdp_api]
          simp
          exact le_trans (Nat.add_le_add (Nat.add_le_add hei hri) hni)
            (by norm_num)
        · simp only [api_request, hst, hok, if_true, List.countP_append,
            List.countP_cons, isRefreshCall_api]
          simp
          exact le_trans
            (Nat.add_le_add (Nat.add_le_add her (Nat.le_of_eq hrr)) hnr)
            (by norm_num)
      · refine ⟨?_, ?_, ?_⟩
        · simp [api_request, hst, hok, List.countP_append,
            List.countP_cons, isApi_api, hea, hra]
        · simp only [api_request, hst, hok, List.countP_append,
            List.countP_cons, isIdp_api]
          simp
          exact le_trans (Nat.add_le_add hei hri) (by norm_num)
        · simp only [api_request, hst, hok, List.countP_append,
            List.countP_cons, isRefreshCall_api]
          simp
          exact le_trans (Nat.add_le_add her (Nat.le_of_eq hrr))
            (by norm_num)
    · refine ⟨?_, ?_, ?_⟩
      · simp [api_request, hst, List.countP_append, List.countP_cons,
          isApi_api, hea]
      · simp only [api_request, hst, List.countP_append,
          List.countP_cons, isIdp_api]
        simp [hst]
        exact le_trans hei (by norm_num)
      · simp only [api_request, hst, List.countP_append,
          List.countP_cons, isRefreshCall_api]
        simp [hst]
        exact le_trans her (by norm_num)

set_option maxRecDepth 8000 in
/-- C7 as stated is refuted: `brightness` is computed with `int()`
(binary64 truncation), not `round()`.  At `light_level = 50` the double
`50 * 2.55` is `127.49999999999999`, so the entity reports 127, while
`round(50 * 2.55) = 128` as the claim (and spec scenario) state. -/
theorem C7_counterexample :
    light_brightness [⟨1, "Kitchen", some 50, true⟩] 1 = some 127 ∧
    spec_brightness 50 = 128 ∧
    light_brightness [⟨1, "Kitchen", some 50, true⟩] 1 ≠
      some (spec_brightness 50) := by decide

/-- C7 amended: for a garden record with `light_level = l`, `0 ≤ l ≤ 100`,
the light entity reports `is_on = (l > 0)` and
`brightness = int(l * 2.55)` computed in binary64, which equals
`⌊51·l/20⌋` for `l ≤ 99` and 254 for `l = 100`; in particular
`light_level = 50` gives `is_on = true` and `brightness = 127` (not
128). -/
theorem C7_light_entity (gardens : List Garden) (gid : Int) (g : Garden)
    (l : Int) (hg : get_garden_data gardens gid = some g)
    (hl : g.light_level = some l) (h0 : 0 ≤ l) (h100 : l ≤ 100) :
    (light_is_on gardens gid = true ↔ 0 < l) ∧
    light_brightness gardens gid =
      some (if l = 100 then 254 else Int.fdiv (51 * l) 20) := by
  have hcast : ((l.toNat : Int)) = l := Int.toNat_of_nonneg h0
  have htab := pyMul255_table l.toNat (by omega)
  rw [hcast] at htab
  constructor
  · simp [light_is_on, hg, hl]
  · simp only [light_brightness, hg, hl, Option.map]
    rw [htab]
    by_cases hc : l = 100
    · have hc' : l.toNat = 100 := by omega
      simp [hc, hc']
    · have hc' : l.toNat ≠ 100 := by omega
      simp [hc, hc']

set_option maxRecDepth 8000 in
/-- Witness for C7 (amended) at the spec scenario garden. -/
theorem C7_witness :
    light_is_on [⟨1, "Kitchen", some 50, true⟩] 1 = true ∧
    light_brightness [⟨1, "Kitchen", some 50, true⟩] 1 = some 127 := by
  have h := C7_light_entity [⟨1, "Kitchen", some 50, true⟩] 1
    ⟨1, "Kitchen", some 50, true⟩ 50 (by decide) rfl (by decide) (by decide)
  refine ⟨h.1.mpr (by norm_num), ?_⟩
  rw [h.2]
  decide

set_option maxRecDepth 8000 in
/-- C8 as stated is refuted: the level sent on turn-on is computed with
`int()` (binary64 truncation), not `round()`.  At `brightness = 5`,
`5 / 2.55 = 1.9607...`, so the source sends level 1 while
`clamp(round(5 / 2.55), 1, 100) = 2`. -/
theorem C8_counterexample :
    (async_turn_on true ⟨some "A", some "R", 100000, some "Bearer A"⟩ 1
        (some 5)
        ⟨0, ⟨.errStatus, 0, .errStatus, 0⟩, .resp ⟨200, 0⟩,
          ⟨.errStatus, 0, .errStatus, 0⟩, 0,
          ⟨.errStatus, 0, .errStatus, 0⟩, .resp ⟨200, 1⟩⟩).1 = 1 ∧
    spec_level 5 = 2 ∧
    (async_turn_on true ⟨some "A", some "R", 100000, some "Bearer A"⟩ 1
        (some 5)
        ⟨0, ⟨.errStatus, 0, .errStatus, 0⟩, .resp ⟨200, 0⟩,
          ⟨.errStatus, 0, .errStatus, 0⟩, 0,
          ⟨.errStatus, 0, .errStatus, 0⟩, .resp ⟨200, 1⟩⟩).1 ≠
      spec_level 5 := by decide

/-- C8 amended: for brightness `b` in 0..255, turn-on sends
`level = clamp(int(b / 2.55), 1, 100)` (binary64 truncation, equal to
`clamp(⌊20·b/51⌋, 1, 100)`), which always lies in 1..100; turn-off sends
level 0; both issue a PUT to the light-level URL whose JSON body is
exactly `{"light_level": level}`; and a coordinator refresh is requested
exactly when the request wrapper returned a response with status 200. -/
theorem C8_turn_on_off (b : Int) (h0 : 0 ≤ b) (h255 : b ≤ 255) (cb : Bool)
    (s : Session) (gid : Int) (env : ReqEnv) :
    (async_turn_on cb s gid (some b) env).1 =
      max 1 (min 100 (Int.fdiv (20 * b) 51)) ∧
    1 ≤ (async_turn_on cb s gid (some b) env).1 ∧
    (async_turn_on cb s gid (some b) env).1 ≤ 100 ∧
    (∀ e ∈ (async_turn_on cb s gid (some b) env).2.2.2, isApi e = true →
      ∃ az tok, e = Ev.api "PUT" (lightUrl gid)
        (some (turn_on_level (some b))) az tok) ∧
    ((async_turn_on cb s gid (some b) env).2.1 = true ↔
      ∃ r, (api_request cb s "PUT" (lightUrl gid)
          (some (turn_on_level (some b))) env).1 = some r ∧
        r.status = 200) ∧
    (async_turn_off cb s gid env).1 = 0 ∧
    (∀ e ∈ (async_turn_off cb s gid env).2.2.2, isApi e = true →
      ∃ az tok, e = Ev.api "PUT" (lightUrl gid) (some 0) az tok) ∧
    ((async_turn_off cb s gid env).2.1 = true ↔
      ∃ r, (api_request cb s "PUT" (lightUrl gid) (some 0) env).1 = some r ∧
        r.status = 200) := by
  have hcast : ((b.toNat : Int)) = b := Int.toNat_of_nonneg h0
  have htab := pyDiv255_table b.toNat (by omega)
  rw [hcast] at htab
  have hlevel : turn_on_level (some b) =
      max 1 (min 100 (Int.fdiv (20 * b) 51)) := by
    simp only [turn_on_level, Option.getD]
    rw [htab]
  refine ⟨hlevel, ?_, ?_, ?_, ?_, rfl, ?_, ?_⟩
  · exact le_max_left 1 _
  · show turn_on_level (some b) ≤ 100
    rw [hlevel]
    exact max_le (by norm_num) (min_le_left _ _)
  · exact api_events_shape cb s "PUT" (lightUrl gid)
      (some (turn_on_level (some b))) env
  · show (set_light_level cb s gid (turn_on_level (some b)) env).1 = true ↔ _
    simp only [set_light_level]
    cases hres : (api_request cb s "PUT" (lightUrl gid)
        (some (turn_on_level (some b))) env).1 with
    | none => simp
    | some r => simp [decide_eq_true_iff]
  · exact api_events_shape cb s "PUT" (lightUrl gid) (some 0) env
  · show (set_light_level cb s gid 0 env).1 = true ↔ _
    simp only [set_light_level]
    cases hres : (api_request cb s "PUT" (lightUrl gid) (some 0) env).1 with
    | none => simp
    | some r => simp [decide_eq_true_iff]

set_option maxRecDepth 8000 in
/-- Witness for C8 (amended): brightness 255 sends level 100 and a 200
response requests a refresh; the spec scenario turn-off sends 0. -/
theorem C8_witness :
    (async_turn_on true ⟨some "A", some "R", 100000, some "Bearer A"⟩ 1
        (some 255)
        ⟨0, ⟨.errStatus, 0, .errStatus, 0⟩, .resp ⟨200, 0⟩,
          ⟨.errStatus, 0, .errStatus, 0⟩, 0,
          ⟨.errStatus, 0, .errStatus, 0⟩, .resp ⟨200, 1⟩⟩).1 = 100 ∧
    (async_turn_off true ⟨some "A", some "R", 100000, some "Bearer A"⟩ 1
        ⟨0, ⟨.errStatus, 0, .errStatus, 0⟩, .resp ⟨200, 0⟩,
          ⟨.errStatus, 0, .errStatus, 0⟩, 0,
          ⟨.errStatus, 0, .errStatus, 0⟩, .resp ⟨200, 1⟩⟩).1 = 0 := by
  have h := C8_turn_on_off 255 (by norm_num) (by norm_num) true
    ⟨some "A", some "R", 100000, some "Bearer A"⟩ 1
    ⟨0, ⟨.errStatus, 0, .errStatus, 0⟩, .resp ⟨200, 0⟩,
      ⟨.errStatus, 0, .errStatus, 0⟩, 0,
      ⟨.errStatus, 0, .errStatus, 0⟩, .resp ⟨200, 1⟩⟩
  refine ⟨?_, h.2.2.2.2.2.1⟩
  rw [h.1]
  decide

/-- C9 as stated is refuted: `authenticate` returns true on any 200
response, including one whose body lacks `access_token`; that run counts
as a successful authentication, pushes `expires_at` into the future
(default 36000 s), yet leaves `access_token` as None (empty).  Concrete
sequence: one `authenticate` at `now = 1000` with 200 body
`{refresh_token: "R", expires_in: 36000}`. -/
theorem C9_counterexample :
    (runOps true initSession false
        [Op.opAuth 1000 (.ok ⟨none, some "R", some 36000⟩)]).2 = true ∧
    (runOps true initSession false
        [Op.opAuth 1000
          (.ok ⟨none, some "R", some 36000⟩)]).1.token_expires_at
      > 1000 ∧
    pyTruthy (runOps true initSession false
        [Op.opAuth 1000
          (.ok ⟨none, some "R", some 36000⟩)]).1.access_token
      = false := by decide

/-- C9 amended: under the well-formedness assumption that every 200 token
response carries a truthy `access_token` and every `set_tokens` call is
given a non-empty one, the invariant holds: in every state reachable from
the initial session by `authenticate` / `refresh_access_token` /
`_ensure_valid_token` / `set_tokens` operations in which at least one
authentication has succeeded, `access_token` is non-empty — in particular
whenever `expires_at` is in the future. -/
theorem C9_session_invariant (cb : Bool) (ops : List Op)
    (hg : ∀ op ∈ ops, goodOp op = true)
    (hsucc : (runOps cb initSession false ops).2 = true) :
    pyTruthy (runOps cb initSession false ops).1.access_token = true ∧
    (∀ now : Int,
      (runOps cb initSession false ops).1.token_expires_at > now →
      pyTruthy (runOps cb initSession false ops).1.access_token = true) := by
  have h := runOps_access cb ops initSession false hg
    (fun hf => by simp at hf) hsucc
  exact ⟨h, fun _ _ => h⟩

/-- Witness for C9 (amended): a single well-formed successful
authentication leaves a non-empty access token. -/
theorem C9_witness :
    pyTruthy (runOps true initSession false
        [Op.opAuth 1000
          (.ok ⟨some "A", some "R", some 36000⟩)]).1.access_token
      = true :=
  (C9_session_invariant true
    [Op.opAuth 1000 (.ok ⟨some "A", some "R", some 36000⟩)]
    (by decide) (by decide)).1

/-- C10 (confirmed): `set_tokens` and every token update performed by
`_update_tokens` (hence by a successful `authenticate` or refresh) leave
`headers["authorization"] = "Bearer " + access_token` for the current
`access_token` (rendered per the source f-string, where a missing token
prints as "None"); the property is preserved by `authenticate` and
`refresh_access_token` in all cases, and every request the wrapper issues
carries exactly the bearer header of the access token current at the
instant of that request. -/
theorem C10_header_tracking (cb : Bool) (s : Session) (now : Int)
    (a rt : String) (ei : Int) (d : TokenResponse) (r : AuthResult)
    (nowR : Int) (ra : AuthResult) (nowA : Int) (m u : String)
    (b : Option Int) (env : ReqEnv) :
    headerInv (set_tokens s now a rt ei) ∧
    (set_tokens s now a rt ei).authz = some ("Bearer " ++ a) ∧
    headerInv ((update_tokens cb now s d).1) ∧
    (headerInv s → headerInv ((authenticate cb now s r).2.1)) ∧
    (headerInv s →
      headerInv ((refresh_access_token cb s r nowR ra nowA).2.1)) ∧
    (headerInv s →
      ∀ e ∈ (api_request cb s m u b env).2.2, isApi e = true →
        ∃ tok, e = Ev.api m u b (some ("Bearer " ++ pyShowOpt tok)) tok) :=
  ⟨headerInv_set_tokens s now a rt ei, rfl,
   headerInv_update_tokens cb now s d,
   headerInv_authenticate cb now s r,
   headerInv_refresh cb s r nowR ra nowA,
   fun h => api_events_header cb s m u b env h⟩

/-- Witness for C10: after restoring a session with `set_tokens`, a
successful authenticate keeps the header in sync. -/
theorem C10_witness :
    headerInv ((authenticate true 0 (set_tokens initSession 0 "A" "R" 100)
      (.ok ⟨some "A2", some "R", some 100⟩)).2.1) :=
  (C10_header_tracking true (set_tokens initSession 0 "A" "R" 100) 0 "A"
    "R" 100 ⟨some "A2", some "R", some 100⟩
    (.ok ⟨some "A2", some "R", some 100⟩) 0 .errStatus 0 "GET" "u" none
    ⟨0, ⟨.errStatus, 0, .errStatus, 0⟩, .resp ⟨200, 0⟩,
      ⟨.errStatus, 0, .errStatus, 0⟩, 0, ⟨.errStatus, 0, .errStatus, 0⟩,
      .resp ⟨200, 1⟩⟩).2.2.2.1
    (headerInv_set_tokens initSession 0 "A" "R" 100)

end RiseGarden
